import Mathlib

/-!
Verification of the QoreDB backend core (src/src-tauri/src) against its
natural-language specification.

The Rust sources are shallowly embedded: pure logic becomes Lean functions,
stateful components (query manager, transaction slot, vault lock) become
explicit state passing, and external effects (the sqlparser library, the
database server, serde_json, Argon2) appear as parameters carrying their
result.  `engine/error.rs` is declared in `engine/mod.rs` but absent from the
sources, so the error type is modelled from the specification's error
taxonomy.
-/

namespace QoreDB

/-! ## SQL safety classifier (src/src-tauri/src/engine/sql_safety.rs)

The classifier runs on the statement list produced by the external
`sqlparser` crate.  The embedding mirrors the `sqlparser::ast` constructors
that `is_mutation_statement` / `is_dangerous_statement` match on; every
variant that falls into a Rust wildcard arm is represented by a constructor
that falls into the corresponding Lean wildcard arm. -/

/-- Embeds `sqlparser::ast::SetExpr` as consumed by `set_expr_is_mutation`
(sql_safety.rs lines 123-136).  `select` carries `select.into.is_some()`
as a flag, which is all `select_has_into` (lines 138-140) reads. -/
inductive SetExpr where
  | select (hasInto : Bool)
  | query (body : SetExpr)
  | setOperation (left right : SetExpr)
  | insertExpr
  | updateExpr
  | deleteExpr
  | mergeExpr
  | values
  | table
  deriving DecidableEq, Repr

/-- Embeds the `sqlparser::ast::Statement` variants distinguished by
`is_mutation_statement` (sql_safety.rs lines 52-89) and
`is_dangerous_statement` (lines 91-117).  `update`/`delete` carry the
`selection` field (`Option` of a WHERE expression, payload irrelevant);
`explain` carries the `analyze` flag and the inner statement.  `insert`,
`merge`, `createTable`, `createIndex` and `other` are representatives of the
variants that both Rust matches send to their wildcard arms. -/
inductive Statement where
  | query (body : SetExpr)
  | explain (analyze : Bool) (statement : Statement)
  | explainTable
  | showFunctions
  | showVariable
  | showStatus
  | showVariables
  | showCreate
  | showColumns
  | showDatabases
  | showSchemas
  | showCharset
  | showObjects
  | showTables
  | showViews
  | showCollation
  | set
  | useStmt
  | startTransaction
  | commit
  | rollback
  | savepoint
  | releaseSavepoint
  | drop
  | dropFunction
  | dropDomain
  | dropProcedure
  | truncate
  | alterTable
  | alterSchema
  | alterIndex
  | alterView
  | alterType
  | alterRole
  | alterPolicy
  | alterConnector
  | alterSession
  | alterUser
  | update (selection : Option Unit)
  | delete (selection : Option Unit)
  | insert
  | merge
  | createTable
  | createIndex
  | other
  deriving DecidableEq, Repr

/-- Embeds `set_expr_is_mutation` (sql_safety.rs lines 123-136) together with
`select_has_into` (lines 138-140) and `query_is_mutation` (lines 119-121),
which merely projects `query.body`. -/
def set_expr_is_mutation : SetExpr → Bool
  | .select hasInto => hasInto
  | .query body => set_expr_is_mutation body
  | .setOperation left right => set_expr_is_mutation left || set_expr_is_mutation right
  | .insertExpr | .updateExpr | .deleteExpr | .mergeExpr => true
  | .values | .table => false

/-- Embeds `is_mutation_statement` (sql_safety.rs lines 52-89). -/
def is_mutation_statement : Statement → Bool
  | .query body => set_expr_is_mutation body
  | .explain analyze statement =>
      if analyze then is_mutation_statement statement else false
  | .explainTable | .showFunctions | .showVariable | .showStatus | .showVariables
  | .showCreate | .showColumns | .showDatabases | .showSchemas | .showCharset
  | .showObjects | .showTables | .showViews | .showCollation
  | .set | .useStmt
  | .startTransaction | .commit | .rollback | .savepoint | .releaseSavepoint => false
  | _ => true

/-- Embeds `is_dangerous_statement` (sql_safety.rs lines 91-117).  An
`Explain` whose `analyze` flag is false falls into the Rust wildcard arm,
hence the inner `if`. -/
def is_dangerous_statement : Statement → Bool
  | .drop | .dropFunction | .dropDomain | .dropProcedure | .truncate
  | .alterTable | .alterSchema | .alterIndex | .alterView | .alterType
  | .alterRole | .alterPolicy | .alterConnector | .alterSession | .alterUser => true
  | .update selection => selection.isNone
  | .delete selection => selection.isNone
  | .explain analyze statement =>
      if analyze then is_dangerous_statement statement else false
  | _ => false

/-- Embeds `SqlSafetyAnalysis` (sql_safety.rs lines 9-13). -/
structure SqlSafetyAnalysis where
  is_mutation : Bool
  is_dangerous : Bool
  deriving DecidableEq, Repr

/-- Embeds the classification loop of `analyze_sql` (sql_safety.rs lines
25-39) on the statement list returned by the external
`Parser::parse_sql` call: each statement may switch either flag to true. -/
def analyze_sql (statements : List Statement) : SqlSafetyAnalysis :=
  statements.foldl
    (fun analysis statement =>
      { is_mutation := analysis.is_mutation || is_mutation_statement statement
        is_dangerous := analysis.is_dangerous || is_dangerous_statement statement })
    { is_mutation := false, is_dangerous := false }

/-! ## Query manager (src/src-tauri/src/engine/query_manager.rs)

`SessionId` and `QueryId` are opaque 128-bit identifiers compared by
identity; the embedding represents them as `Nat`.  The three `HashMap`s
become functions, a `HashSet` becomes a duplicate-free list whose emptiness
stands for the entry being absent. -/

abbrev SessionId := Nat
abbrev QueryId := Nat

/-- Embeds the three maps of `QueryManager` (query_manager.rs lines 11-15). -/
structure QueryManagerState where
  active : QueryId → Option SessionId
  by_session : SessionId → List QueryId
  last_by_session : SessionId → Option QueryId

/-- The state of a freshly constructed `QueryManager::new` (lines 18-24). -/
def QueryManagerState.empty : QueryManagerState :=
  { active := fun _ => none
    by_session := fun _ => []
    last_by_session := fun _ => none }

/-- Embeds `HashSet::insert` on the per-session set. -/
def hashset_insert (query_id : QueryId) (s : List QueryId) : List QueryId :=
  if query_id ∈ s then s else query_id :: s

/-- Embeds `QueryManager::register_with_id` (query_manager.rs lines 32-59).
The Rust method mutates in place, so the embedding returns the result
together with the state after the call; the duplicate check precedes every
insertion, so the error branch returns the state unchanged. -/
def register_with_id (st : QueryManagerState) (session_id : SessionId)
    (query_id : QueryId) : Except String QueryId × QueryManagerState :=
  if (st.active query_id).isSome then
    (.error "Query ID already registered", st)
  else
    (.ok query_id,
      { active := fun q => if q = query_id then some session_id else st.active q
        by_session := fun s =>
          if s = session_id then hashset_insert query_id (st.by_session s)
          else st.by_session s
        last_by_session := fun s =>
          if s = session_id then some query_id else st.last_by_session s })

/-- Embeds `QueryManager::register` (query_manager.rs lines 26-30); the
freshly minted `QueryId::new` value is passed in as `fresh` and the
`register_with_id` result is discarded exactly as in the source. -/
def register (st : QueryManagerState) (session_id : SessionId) (fresh : QueryId) :
    QueryId × QueryManagerState :=
  let r := register_with_id st session_id fresh
  (fresh, r.2)

/-- Embeds `QueryManager::finish` (query_manager.rs lines 61-81): removing an
unknown id leaves every map unchanged; otherwise the id leaves `active`, the
session's set (dropping the set when it empties, which in the list model is
the same as the filter), and `last_by_session` only when it still points at
the finished id. -/
def finish (st : QueryManagerState) (query_id : QueryId) : QueryManagerState :=
  match st.active query_id with
  | none => st
  | some session_id =>
      { active := fun q => if q = query_id then none else st.active q
        by_session := fun s =>
          if s = session_id then (st.by_session s).filter (fun q => q != query_id)
          else st.by_session s
        last_by_session := fun s =>
          if s = session_id then
            if st.last_by_session s = some query_id then none
            else st.last_by_session s
          else st.last_by_session s }

/-- Embeds `QueryManager::contains` (query_manager.rs lines 83-86). -/
def contains (st : QueryManagerState) (query_id : QueryId) : Bool :=
  (st.active query_id).isSome

/-- Embeds `QueryManager::session_for` (query_manager.rs lines 88-91). -/
def session_for (st : QueryManagerState) (query_id : QueryId) : Option SessionId :=
  st.active query_id

/-- Embeds `QueryManager::last_for_session` (query_manager.rs lines 93-96). -/
def last_for_session (st : QueryManagerState) (session_id : SessionId) : Option QueryId :=
  st.last_by_session session_id

/-! ## Policy gate of `execute_query` (src/src-tauri/src/commands/query.rs) -/

/-- Embeds the `READ_ONLY_BLOCKED` constant (query.rs line 18). -/
def READ_ONLY_BLOCKED : String := "Operation blocked: read-only mode"

/-- Embeds the `DANGEROUS_BLOCKED` constant (query.rs line 19). -/
def DANGEROUS_BLOCKED : String := "Dangerous query blocked: confirmation required"

/-- Embeds the `DANGEROUS_BLOCKED_POLICY` constant (query.rs line 20). -/
def DANGEROUS_BLOCKED_POLICY : String := "Dangerous query blocked by policy"

/-- Embeds the `SQL_PARSE_BLOCKED` constant (query.rs line 21). -/
def SQL_PARSE_BLOCKED : String := "Operation blocked: SQL parser could not classify the query"

/-- Embeds `SafetyPolicy` (src/src-tauri/src/policy.rs lines 10-14). -/
structure SafetyPolicy where
  prod_require_confirmation : Bool
  prod_block_dangerous_sql : Bool
  deriving DecidableEq, Repr

/-- Outcome of the safety gate inside `execute_query`: either an early
blocked envelope with the given error text, or fall-through to query
registration and execution. -/
inductive GateDecision where
  | block (error : String)
  | allow
  deriving DecidableEq, Repr

/-- Embeds the policy gate of `execute_query` (query.rs lines 152-247).
Inputs mirror what the command reads before the gate: the session flags
(`is_read_only`, `is_production` from the session manager), whether the
driver is a SQL driver (`driver_id` not equal to "mongodb", line 153), the
loaded `SafetyPolicy`, the caller's `acknowledged_dangerous` option, the
result of the external `sql_safety::analyze_sql` call, and the value of
`is_mongo_mutation(query)` for the document branch. -/
def execute_query_gate (read_only is_production is_sql_driver : Bool)
    (policy : SafetyPolicy) (acknowledged_dangerous : Option Bool)
    (sql_parse : Except String SqlSafetyAnalysis)
    (query_is_mongo_mutation : Bool) : GateDecision :=
  let acknowledged := acknowledged_dangerous.getD false
  let afterParse : Option GateDecision × Option SqlSafetyAnalysis :=
    if is_sql_driver then
      match sql_parse with
      | .ok analysis => (none, some analysis)
      | .error err =>
          if read_only then
            (some (.block (SQL_PARSE_BLOCKED ++ ": " ++ err)), none)
          else if is_production && policy.prod_block_dangerous_sql then
            (some (.block (DANGEROUS_BLOCKED_POLICY ++ ": SQL parse error: " ++ err)), none)
          else if is_production && policy.prod_require_confirmation && !acknowledged then
            (some (.block (DANGEROUS_BLOCKED ++ ": SQL parse error: " ++ err)), none)
          else (none, none)
    else (none, none)
  match afterParse with
  | (some decision, _) => decision
  | (none, sql_analysis) =>
      let is_mutation :=
        if is_sql_driver then (sql_analysis.map SqlSafetyAnalysis.is_mutation).getD false
        else query_is_mongo_mutation
      if read_only && is_mutation then .block READ_ONLY_BLOCKED
      else
        let is_dangerous :=
          if is_sql_driver then (sql_analysis.map SqlSafetyAnalysis.is_dangerous).getD false
          else false
        if is_production && is_dangerous then
          if policy.prod_block_dangerous_sql then .block DANGEROUS_BLOCKED_POLICY
          else if policy.prod_require_confirmation && !acknowledged then
            .block DANGEROUS_BLOCKED
          else .allow
        else .allow

/-- Embeds the `QueryResponse` envelope (query.rs lines 63-69); `has_result`
records whether the `result` field is populated. -/
structure QueryResponse where
  success : Bool
  has_result : Bool
  error : Option String
  query_id : Option QueryId
  deriving DecidableEq, Repr

/-- An early blocked envelope as built at every gate exit of `execute_query`
(query.rs, e.g. lines 209-215): failure, no result, the gate's error text,
and a null `query_id`. -/
def blocked_response (msg : String) : QueryResponse :=
  { success := false, has_result := false, error := some msg, query_id := none }

/-- Embeds `execute_query` (query.rs lines 104-305) from the gate onward,
with the driver call abstracted as `exec_result`.  The returned triple is the
command's result, the query-manager state after the call, and whether
`driver.execute` was invoked.  The timeout branch (lines 265-278) is not
modelled (`timeout_ms = None`). -/
def execute_query_model (read_only is_production is_sql_driver : Bool)
    (policy : SafetyPolicy) (acknowledged_dangerous : Option Bool)
    (sql_parse : Except String SqlSafetyAnalysis) (query_is_mongo_mutation : Bool)
    (qm : QueryManagerState) (session : SessionId)
    (provided_query_id : Option QueryId) (fresh : QueryId)
    (exec_result : Except String Unit) :
    Except String QueryResponse × QueryManagerState × Bool :=
  match execute_query_gate read_only is_production is_sql_driver policy
      acknowledged_dangerous sql_parse query_is_mongo_mutation with
  | .block msg => (.ok (blocked_response msg), qm, false)
  | .allow =>
      let run := fun (qid : QueryId) (qm1 : QueryManagerState) =>
        match exec_result with
        | .ok _ =>
            (Except.ok { success := true, has_result := true, error := none,
                         query_id := some qid },
             finish qm1 qid, true)
        | .error e =>
            (Except.ok { success := false, has_result := false, error := some e,
                         query_id := some qid },
             finish qm1 qid, true)
      match provided_query_id with
      | some qid =>
          match register_with_id qm session qid with
          | (.error e, qm1) => (.error ("Failed to register query ID: " ++ e), qm1, false)
          | (.ok _, qm1) => run qid qm1
      | none =>
          let r := register qm session fresh
          run r.1 r.2

/-! ## Error type (engine/error.rs, absent from the sources) -/

/-- Modelled from the spec: `engine/error.rs` is declared in
`src/src-tauri/src/engine/mod.rs` but the file is missing from the sources.
Section 7 of the spec fixes the closed error taxonomy this type mirrors. -/
inductive ErrorKind where
  | connectionFailed
  | authFailed
  | timeout
  | sessionNotFound
  | driverNotFound
  | syntaxError
  | executionError
  | transactionError
  | notSupported
  | sshError
  | internal
  | policyBlocked
  deriving DecidableEq, Repr

/-- Modelled from the spec: an `EngineError` pairs one of the closed error
kinds with a human-readable message; the sources build errors through helper
constructors named after the kind (for example
`EngineError::transaction_error`). -/
structure EngineError where
  kind : ErrorKind
  message : String
  deriving DecidableEq, Repr

/-- Modelled from the spec: the `EngineError::transaction_error` helper. -/
def EngineError.transaction_error (msg : String) : EngineError :=
  { kind := .transactionError, message := msg }

/-- Modelled from the spec: the `EngineError::execution_error` helper. -/
def EngineError.execution_error (msg : String) : EngineError :=
  { kind := .executionError, message := msg }

/-- Modelled from the spec: the `EngineError::connection_failed` helper. -/
def EngineError.connection_failed (msg : String) : EngineError :=
  { kind := .connectionFailed, message := msg }

/-- Modelled from the spec: the `EngineError::internal` helper. -/
def EngineError.internal (msg : String) : EngineError :=
  { kind := .internal, message := msg }

/-! ## Postgres driver transactions (src/src-tauri/src/engine/drivers/postgres.rs)

The per-session `transaction_conn: Mutex<Option<PoolConnection>>` slot is the
whole transaction state; a pool connection is represented by a `Nat` handle.
Pool acquisition and the server round trips (`BEGIN`, `COMMIT`, `ROLLBACK`)
are external effects passed in as their results. -/

/-- Embeds `PostgresDriver::begin_transaction` (postgres.rs lines 643-672) as
a function of the session's `transaction_conn` slot.  Returns the call result
and the slot after the call. -/
def begin_transaction (transaction_conn : Option Nat)
    (pool_acquire : Except String Nat) (begin_exec : Except String Unit) :
    Except EngineError Unit × Option Nat :=
  match transaction_conn with
  | some conn =>
      (.error (EngineError.transaction_error
        "A transaction is already active on this session"), some conn)
  | none =>
      match pool_acquire with
      | .error e =>
          (.error (EngineError.connection_failed
            ("Failed to acquire connection for transaction: " ++ e)), none)
      | .ok conn =>
          match begin_exec with
          | .error e =>
              (.error (EngineError.execution_error
                ("Failed to begin transaction: " ++ e)), none)
          | .ok _ => (.ok (), some conn)

/-- Embeds `PostgresDriver::commit` (postgres.rs lines 674-694): `tx.take()`
empties the slot before the server round trip, so the slot is empty after the
call whether `COMMIT` succeeded or failed. -/
def commit (transaction_conn : Option Nat) (commit_exec : Except String Unit) :
    Except EngineError Unit × Option Nat :=
  match transaction_conn with
  | none => (.error (EngineError.transaction_error "No active transaction to commit"), none)
  | some _ =>
      match commit_exec with
      | .error e =>
          (.error (EngineError.execution_error
            ("Failed to commit transaction: " ++ e)), none)
      | .ok _ => (.ok (), none)

/-- Embeds `PostgresDriver::rollback` (postgres.rs lines 696-716), symmetric
to `commit`. -/
def rollback (transaction_conn : Option Nat) (rollback_exec : Except String Unit) :
    Except EngineError Unit × Option Nat :=
  match transaction_conn with
  | none => (.error (EngineError.transaction_error "No active transaction to rollback"), none)
  | some _ =>
      match rollback_exec with
      | .error e =>
          (.error (EngineError.execution_error
            ("Failed to rollback transaction: " ++ e)), none)
      | .ok _ => (.ok (), none)

/-! ## Postgres row mutations (src/src-tauri/src/engine/drivers/postgres.rs)

`insert_row` / `update_row` / `delete_row` build a SQL string and a
positional bind list from `RowData`; the embedding returns that plan instead
of performing the server round trip. -/

/-- Embeds `Value` (src/src-tauri/src/engine/types.rs lines 179-190); the
`f64`, byte, JSON and array payloads are irrelevant to SQL generation and are
not carried. -/
inductive Value where
  | null
  | bool (b : Bool)
  | int (i : Int)
  | float
  | text (s : String)
  | bytes
  | json
  | array
  deriving DecidableEq, Repr

/-- Embeds `Namespace` (types.rs lines 139-143). -/
structure Namespace where
  database : String
  schema : Option String
  deriving DecidableEq, Repr

/-- Embeds `RowData` (types.rs lines 229-233); the `HashMap` is an
association list with pairwise-distinct keys. -/
structure RowData where
  columns : List (String × Value)
  deriving DecidableEq, Repr

/-- Looks a column up in a `RowData`.  The sources call
`data.columns.get(*k).unwrap()` only with keys drawn from the map itself, so
the default branch is unreachable there. -/
def RowData.get (data : RowData) (k : String) : Value :=
  (data.columns.lookup k).getD .null

/-- Embeds `s.replace("\"", "\"\"")` character by character: the pattern is
the single double-quote character, so replacement doubles each occurrence. -/
def escape_quote_chars : List Char → List Char
  | [] => []
  | c :: rest =>
      if c = '\"' then '\"' :: '\"' :: escape_quote_chars rest
      else c :: escape_quote_chars rest

/-- Embeds the identifier quoting used throughout the mutation methods
(postgres.rs e.g. line 746): wrap in double quotes, doubling any embedded
double quote. -/
def quote_ident (s : String) : String :=
  "\"" ++ String.mk (escape_quote_chars s.data) ++ "\""

/-- Embeds the `table_name` computation of the mutation methods (postgres.rs
lines 734-738): quote the schema part (when present) and the table part. -/
def table_name (ns : Namespace) (table : String) : String :=
  match ns.schema with
  | some schema => quote_ident schema ++ "." ++ quote_ident table
  | none => quote_ident table

/-- Lexicographic comparison of character lists: the order `Vec::sort`
applies to the collected `&String` keys (Rust's `Ord` on strings). -/
def chars_le : List Char → List Char → Bool
  | [], _ => true
  | _ :: _, [] => false
  | a :: as, b :: bs =>
      if a < b then true
      else if b < a then false
      else chars_le as bs

/-- String comparison through `chars_le`. -/
def string_le (a b : String) : Bool :=
  chars_le a.data b.data

/-- Sorted insertion for `insertion_sort`. -/
def ordered_insert (a : String) : List String → List String
  | [] => [a]
  | b :: l => if string_le a b then a :: b :: l else b :: ordered_insert a l

/-- Embeds `keys.sort()`: a stable sort returning the keys in ascending
order. -/
def insertion_sort : List String → List String
  | [] => []
  | b :: l => ordered_insert b (insertion_sort l)

/-- The collected column names of a `RowData`, sorted as by `keys.sort()`. -/
def sorted_keys (columns : List (String × Value)) : List String :=
  insertion_sort (columns.map Prod.fst)

/-- The SQL text and positional bind list a mutation method hands to sqlx, or
the short-circuit result it returns without a server round trip. -/
inductive MutationPlan where
  | immediate (affected_rows : Nat)
  | execute (sql : String) (binds : List Value)
  deriving DecidableEq, Repr

/-- Embeds `PostgresDriver::insert_row` (postgres.rs lines 724-773) up to the
server round trip: empty `RowData` emits the `DEFAULT VALUES` form, otherwise
the sorted column list with positional parameters `$1..$n` bound in the same
order. -/
def insert_row (ns : Namespace) (table : String) (data : RowData) :
    Except String MutationPlan :=
  let tname := table_name ns table
  let keys := sorted_keys data.columns
  if keys.isEmpty then
    .ok (.execute ("INSERT INTO " ++ tname ++ " DEFAULT VALUES") [])
  else
    let cols_str := String.intercalate ", " (keys.map quote_ident)
    let params_str := String.intercalate ", "
      ((List.range keys.length).map (fun i => "$" ++ toString (i + 1)))
    .ok (.execute
      ("INSERT INTO " ++ tname ++ " (" ++ cols_str ++ ") VALUES (" ++ params_str ++ ")")
      (keys.map data.get))

/-- Embeds `PostgresDriver::update_row` (postgres.rs lines 775-855) up to the
server round trip: an empty primary-key map is refused, a non-empty key with
empty data returns zero affected rows without a round trip, and otherwise the
SET clauses take `$1..` followed by the WHERE clauses, binding data values
then key values. -/
def update_row (ns : Namespace) (table : String) (primary_key data : RowData) :
    Except String MutationPlan :=
  if primary_key.columns.isEmpty then
    .error "Primary key required for update operations"
  else if data.columns.isEmpty then
    .ok (.immediate 0)
  else
    let tname := table_name ns table
    let data_keys := sorted_keys data.columns
    let pk_keys := sorted_keys primary_key.columns
    let set_clauses := data_keys.enum.map
      (fun p => quote_ident p.2 ++ "=$" ++ toString (p.1 + 1))
    let where_clauses := pk_keys.enum.map
      (fun p => quote_ident p.2 ++ "=$" ++ toString (data_keys.length + p.1 + 1))
    .ok (.execute
      ("UPDATE " ++ tname ++ " SET " ++ String.intercalate ", " set_clauses
        ++ " WHERE " ++ String.intercalate " AND " where_clauses)
      (data_keys.map data.get ++ pk_keys.map primary_key.get))

/-- Embeds `PostgresDriver::delete_row` (postgres.rs lines 857-909) up to the
server round trip. -/
def delete_row (ns : Namespace) (table : String) (primary_key : RowData) :
    Except String MutationPlan :=
  if primary_key.columns.isEmpty then
    .error "Primary key required for delete operations"
  else
    let tname := table_name ns table
    let pk_keys := sorted_keys primary_key.columns
    let where_clauses := pk_keys.enum.map
      (fun p => quote_ident p.2 ++ "=$" ++ toString (p.1 + 1))
    .ok (.execute
      ("DELETE FROM " ++ tname ++ " WHERE " ++ String.intercalate " AND " where_clauses)
      (pk_keys.map primary_key.get))

/-! ## MongoDB driver query dispatch (src/src-tauri/src/engine/drivers/mongodb.rs)

The external `serde_json::from_str` call is passed in as its result; `Json`
embeds `serde_json::Value` as far as the driver inspects it. -/

/-- Embeds `serde_json::Value` (string payloads and object shape are all the
driver reads; numbers, booleans and array elements are not inspected). -/
inductive Json where
  | null
  | str (s : String)
  | num
  | boolean (b : Bool)
  | arr (items : List Json)
  | obj (fields : List (String × Json))

/-- The opening-brace character `trimmed.starts_with` tests for. -/
def lbrace : Char := Char.ofNat 123

/-- Embeds `trimmed.starts_with` of the opening brace. -/
def starts_with_lbrace (s : String) : Bool :=
  match s.data with
  | [] => false
  | c :: _ => c == lbrace

/-- Embeds `split('.')` / `splitOn "."` on the character list: splitting on
the dot separator, keeping empty fragments. -/
def split_dot : List Char → List (List Char)
  | [] => [[]]
  | c :: rest =>
      let r := split_dot rest
      if c = '.' then [] :: r
      else
        match r with
        | [] => [[c]]
        | p :: ps => (c :: p) :: ps

/-- Field lookup on a JSON object, `none` on any other shape: the behaviour
of `serde_json`'s `Value::get`. -/
def json_get : Json → String → Option Json
  | .obj fields, key => fields.lookup key
  | _, _ => none

/-- Embeds `parsed[key].as_str()`: indexing a non-object yields `Null` and
`as_str` is `None` on anything but a string. -/
def json_index_as_str (j : Json) (key : String) : Option String :=
  match json_get j key with
  | some (.str s) => some s
  | _ => none

/-- Embeds `MongoDriver::parse_query` (mongodb.rs lines 86-131): a query
starting with a brace must be a JSON object carrying `database` and
`collection` (the optional `query` field becomes the filter, converted by
`bson::to_document`, which fails on non-documents); anything else is split on
dots and needs at least two parts. -/
def parse_query (trimmed : String) (serde_parse : Except String Json) :
    Except String (String × String × Json) :=
  if starts_with_lbrace trimmed then
    match serde_parse with
    | .error e => .error ("Invalid JSON: " ++ e)
    | .ok parsed =>
        match json_index_as_str parsed "database" with
        | none => .error "Missing 'database' field"
        | some database =>
            match json_index_as_str parsed "collection" with
            | none => .error "Missing 'collection' field"
            | some collection =>
                match json_get parsed "query" with
                | some q =>
                    match q with
                    | .obj fields => .ok (database, collection, .obj fields)
                    | _ => .error "Invalid query: not a document"
                | none => .ok (database, collection, .obj [])
  else
    match (split_dot trimmed.data).map String.mk with
    | p0 :: p1 :: _ => .ok (p0, p1, .obj [])
    | _ => .error "Invalid query format. Use JSON: \x7b\"database\": \"db\", \"collection\": \"col\", \"query\": \x7b...\x7d\x7d"

/-- The server operation `MongoDriver::execute` dispatches to. -/
inductive MongoAction where
  | createCollection (database collection : String)
  | find (database collection : String) (filter : Json)

/-- Embeds the dispatch of `MongoDriver::execute` (mongodb.rs lines 259-342):
a JSON query whose `operation` field is `create_collection` issues the
`create` command; every other input — including `operation` values such as
`drop_collection` or `drop_database` — falls through to `parse_query` and
runs as a `find`. -/
def mongo_execute (trimmed : String) (serde_parse : Except String Json) :
    Except String MongoAction :=
  let special : Option (Except String MongoAction) :=
    if starts_with_lbrace trimmed then
      match serde_parse with
      | .error e => some (.error ("Invalid JSON: " ++ e))
      | .ok parsed =>
          match json_index_as_str parsed "operation" with
          | some op =>
              if op = "create_collection" then
                match json_index_as_str parsed "database" with
                | none => some (.error "Missing 'database' field")
                | some database =>
                    match json_index_as_str parsed "collection" with
                    | none => some (.error "Missing 'collection' field")
                    | some collection =>
                        some (.ok (.createCollection database collection))
              else none
          | none => none
    else none
  match special with
  | some result => result
  | none =>
      match parse_query trimmed serde_parse with
      | .error e => .error e
      | .ok (database, collection, filter) => .ok (.find database collection filter)

/-- Embeds the cursor loop of `MongoDriver::execute` in find mode (mongodb.rs
lines 308-320): push each document, stopping once 1000 are collected. -/
def collect_documents : List Json → List Json → List Json
  | [], documents => documents
  | doc :: rest, documents =>
      if (documents ++ [doc]).length ≥ 1000 then documents ++ [doc]
      else collect_documents rest (documents ++ [doc])

/-! ## Vault lock gate (src/src-tauri/src/vault/lock.rs and
src/src-tauri/src/commands/connection.rs) -/

/-- Embeds `VaultLock` (lock.rs lines 17-19). -/
structure VaultLock where
  is_unlocked : Bool
  deriving DecidableEq, Repr

/-- Embeds `VaultLock::is_locked` (lock.rs lines 89-91). -/
def VaultLock.is_locked (v : VaultLock) : Bool :=
  !v.is_unlocked

/-- Embeds `ConnectionResponse` as serialized by the connection commands. -/
structure ConnectionResponse where
  success : Bool
  session_id : Option String
  error : Option String
  deriving DecidableEq, Repr

/-- Embeds the vault-lock gate at the head of `connect_saved_connection`
(connection.rs lines 286-296): while the lock is held the command returns the
blocked envelope before reading the vault or touching the session manager;
`none` means the command proceeds to load the saved config and connect. -/
def connect_saved_connection_gate (vault_lock : VaultLock) : Option ConnectionResponse :=
  if vault_lock.is_locked then
    some { success := false, session_id := none, error := some "Vault is locked" }
  else none

/-- Embeds `VaultLock::unlock` (lock.rs lines 62-81).  The keyring read, the
`PasswordHash` parse and the Argon2 verification are external effects passed
in as results; on a successful verification the flag is set, on a failed one
the call returns `Ok false` leaving the flag unchanged. -/
def unlock (v : VaultLock) (stored_hash : Except String String)
    (parse_hash : Except String Unit) (password_matches : Bool) :
    Except EngineError Bool × VaultLock :=
  match stored_hash with
  | .error e => (.error (EngineError.internal ("No master password set: " ++ e)), v)
  | .ok _ =>
      match parse_hash with
      | .error e => (.error (EngineError.internal ("Invalid stored hash: " ++ e)), v)
      | .ok _ =>
          if password_matches then (.ok true, { is_unlocked := true })
          else (.ok false, v)

/-! ## Helper lemmas -/

/-- On a classified query the gate reduces to the read-only check followed by
the production dangerous check; definitional unfolding of
`execute_query_gate` on `Except.ok`. -/
theorem execute_query_gate_classified (read_only is_production : Bool)
    (policy : SafetyPolicy) (ack : Option Bool) (analysis : SqlSafetyAnalysis)
    (m : Bool) :
    execute_query_gate read_only is_production true policy ack (.ok analysis) m =
      (if read_only && analysis.is_mutation then .block READ_ONLY_BLOCKED
       else if is_production && analysis.is_dangerous then
         (if policy.prod_block_dangerous_sql then .block DANGEROUS_BLOCKED_POLICY
          else if policy.prod_require_confirmation && !(ack.getD false) then
            .block DANGEROUS_BLOCKED
          else .allow)
       else .allow) := rfl

/-- On a parse failure the gate reduces to the three early blocks of the
`Err` arm followed by fall-through (`sql_analysis = None` makes both
classified checks vacuous). -/
theorem execute_query_gate_parse_error (read_only is_production : Bool)
    (policy : SafetyPolicy) (ack : Option Bool) (err : String) (m : Bool) :
    execute_query_gate read_only is_production true policy ack (.error err) m =
      (if read_only then .block (SQL_PARSE_BLOCKED ++ ": " ++ err)
       else if is_production && policy.prod_block_dangerous_sql then
         .block (DANGEROUS_BLOCKED_POLICY ++ ": SQL parse error: " ++ err)
       else if is_production && policy.prod_require_confirmation && !(ack.getD false) then
         .block (DANGEROUS_BLOCKED ++ ": SQL parse error: " ++ err)
       else .allow) := by
  obtain ⟨prc, pbd⟩ := policy
  rcases ack with _ | b
  · cases read_only <;> cases is_production <;> cases prc <;> cases pbd <;> rfl
  · cases b <;> cases read_only <;> cases is_production <;> cases prc <;> cases pbd <;> rfl

/-- `chars_le` decides the negation of the lexicographic strict order on
character lists. -/
theorem chars_le_iff (as : List Char) :
    ∀ bs, chars_le as bs = true ↔ ¬ List.Lex (· < ·) bs as := by
  induction as with
  | nil =>
      intro bs
      simp only [chars_le, true_iff]
      exact List.Lex.not_nil_right _ _
  | cons a as ih =>
      intro bs
      cases bs with
      | nil =>
          simp only [chars_le, Bool.false_eq_true, false_iff, not_not]
          exact List.Lex.nil
      | cons b bs =>
          simp only [chars_le]
          by_cases h1 : a < b
          · simp only [if_pos h1, true_iff]
            intro hlex
            cases hlex with
            | cons h => exact absurd h1 (lt_irrefl _)
            | rel h => exact absurd h (lt_asymm h1)
          · by_cases h2 : b < a
            · simp only [if_neg h1, if_pos h2, Bool.false_eq_true, false_iff, not_not]
              exact List.Lex.rel h2
            · have hab : a = b := le_antisymm (not_lt.mp h2) (not_lt.mp h1)
              subst hab
              simp only [if_neg h1, if_neg h2]
              rw [List.Lex.cons_iff]
              exact ih bs

/-- `string_le` decides the linear order Mathlib puts on `String`, which is
the same lexicographic order. -/
theorem string_le_iff (a b : String) : string_le a b = true ↔ a ≤ b := by
  rw [string_le, chars_le_iff]
  have h := @String.lt_iff_toList_lt b a
  constructor
  · intro hn
    exact not_lt.mp (fun hlt => hn (h.mp hlt))
  · intro hle hlex
    exact absurd (h.mpr hlex) (not_lt.mpr hle)

/-- `ordered_insert` coincides with Mathlib's `List.orderedInsert` for the
string order. -/
theorem ordered_insert_eq (a : String) (l : List String) :
    ordered_insert a l = List.orderedInsert (· ≤ ·) a l := by
  induction l with
  | nil => rfl
  | cons b t ih =>
      simp only [ordered_insert, List.orderedInsert]
      by_cases h : a ≤ b
      · rw [if_pos ((string_le_iff a b).mpr h), if_pos h]
      · rw [if_neg ?_, if_neg h, ih]
        intro hb
        exact h ((string_le_iff a b).mp hb)

/-- `insertion_sort` coincides with Mathlib's `List.insertionSort` for the
string order. -/
theorem insertion_sort_eq (l : List String) :
    insertion_sort l = List.insertionSort (· ≤ ·) l := by
  induction l with
  | nil => rfl
  | cons b t ih => simp only [insertion_sort, List.insertionSort, ih, ordered_insert_eq]

/-- The classification fold of `analyze_sql` ORs each statement's flags onto
the accumulator. -/
theorem analyze_sql_foldl (statements : List Statement) (acc : SqlSafetyAnalysis) :
    statements.foldl
      (fun analysis statement =>
        { is_mutation := analysis.is_mutation || is_mutation_statement statement
          is_dangerous := analysis.is_dangerous || is_dangerous_statement statement })
      acc
    = { is_mutation := acc.is_mutation || statements.any is_mutation_statement
        is_dangerous := acc.is_dangerous || statements.any is_dangerous_statement } := by
  induction statements generalizing acc with
  | nil => simp
  | cons s rest ih => simp [List.foldl_cons, ih, Bool.or_assoc]

/-- The find-mode cursor loop never grows the document list past 1000. -/
theorem collect_documents_le (cursor : List Json) :
    ∀ documents : List Json, documents.length < 1000 →
      (collect_documents cursor documents).length ≤ 1000 := by
  induction cursor with
  | nil => exact fun documents h => Nat.le_of_lt h
  | cons doc rest ih =>
      intro documents h
      by_cases hge : (documents ++ [doc]).length ≥ 1000
      · rw [collect_documents, if_pos hge]
        simp only [List.length_append, List.length_singleton] at hge ⊢
        omega
      · rw [collect_documents, if_neg hge]
        exact ih _ (by simp only [List.length_append, List.length_singleton] at hge ⊢; omega)

/-! ## Claim theorems -/

/-- C1: for every session with `read_only = true` and every query the SQL
safety classifier classifies as a mutation, `execute_query` returns the
envelope `success = false`, `error = "Operation blocked: read-only mode"`,
`query_id = null`, leaving the query manager untouched and never invoking
the driver's `execute`. -/
theorem readonly_mutation_blocked (is_production : Bool) (policy : SafetyPolicy)
    (ack : Option Bool) (analysis : SqlSafetyAnalysis) (mongoMut : Bool)
    (qm : QueryManagerState) (session : SessionId) (provided : Option QueryId)
    (fresh : QueryId) (exec_result : Except String Unit)
    (h : analysis.is_mutation = true) :
    execute_query_model true is_production true policy ack (.ok analysis) mongoMut
        qm session provided fresh exec_result
      = (.ok (blocked_response READ_ONLY_BLOCKED), qm, false) := by
  obtain ⟨im, idg⟩ := analysis
  cases im
  · cases h
  · rfl

/-- C1 witness: the theorem applied at a concrete read-only session and a
concrete mutation classification. -/
theorem readonly_mutation_blocked_witness :
    execute_query_model true false true ⟨true, false⟩ none
        (.ok ⟨true, false⟩) false QueryManagerState.empty 0 none 0 (.ok ())
      = (.ok (blocked_response READ_ONLY_BLOCKED), QueryManagerState.empty, false) :=
  readonly_mutation_blocked false ⟨true, false⟩ none ⟨true, false⟩ false
    QueryManagerState.empty 0 none 0 (.ok ()) rfl

/-- C2 counterexample: a production session that is also read-only, with
policy `require_confirmation = true`, `block_dangerous_sql = false`, a
dangerous statement (`UPDATE` without `WHERE`, which `analyze_sql` marks
dangerous and a mutation) and `acknowledged_dangerous = true` is still
blocked — by the read-only gate — so `execute_query` does not proceed to
execution even though the caller acknowledged, refuting the claimed
"proceeds if and only if acknowledged" equivalence. -/
theorem prod_dangerous_ack_claim_fails :
    execute_query_gate true true true
        { prod_require_confirmation := true, prod_block_dangerous_sql := false }
        (some true) (.ok (analyze_sql [Statement.update none])) false
      ≠ GateDecision.allow := by decide

/-- C2 (amended): for every production session and classified-dangerous query,
`prod_block_dangerous_sql` blocks regardless of acknowledgement; otherwise
with `prod_require_confirmation` set, for a session that is not blocked
earlier by the read-only mutation gate, the query passes the gate iff
`acknowledged_dangerous = true`. -/
theorem prod_dangerous_gate (read_only im : Bool) (policy : SafetyPolicy)
    (ack : Option Bool) (mongoMut : Bool) :
    (policy.prod_block_dangerous_sql = true →
      execute_query_gate read_only true true policy ack
          (.ok { is_mutation := im, is_dangerous := true }) mongoMut
        ≠ .allow)
    ∧ (policy.prod_block_dangerous_sql = false →
       policy.prod_require_confirmation = true →
       (read_only && im) = false →
       (execute_query_gate read_only true true policy ack
            (.ok { is_mutation := im, is_dangerous := true }) mongoMut
          = .allow
        ↔ ack.getD false = true)) := by
  obtain ⟨prc, pbd⟩ := policy
  rcases ack with _ | b
  · cases read_only <;> cases im <;> cases prc <;> cases pbd <;> cases mongoMut <;> decide
  · cases b <;> cases read_only <;> cases im <;> cases prc <;> cases pbd <;>
      cases mongoMut <;> decide

/-- C2 witness: with `require_confirmation` and no read-only block, an
acknowledged dangerous query passes the gate. -/
theorem prod_dangerous_gate_witness :
    execute_query_gate false true true
        { prod_require_confirmation := true, prod_block_dangerous_sql := false }
        (some true) (.ok { is_mutation := true, is_dangerous := true }) false
      = .allow :=
  ((prod_dangerous_gate false true
      { prod_require_confirmation := true, prod_block_dangerous_sql := false }
      (some true) false).2 rfl rfl rfl).mpr rfl

/-- C3: when the classifier fails to parse, a read-only session is blocked
with the parser-could-not-classify reason; else a production session with
`prod_block_dangerous_sql` is blocked; else a production session with
`prod_require_confirmation` and no acknowledgement is blocked with the
confirmation-required reason; otherwise the query is allowed to execute. -/
theorem parse_failure_gate (err : String) (read_only is_production : Bool)
    (policy : SafetyPolicy) (ack : Option Bool) (mongoMut : Bool) :
    (read_only = true →
      execute_query_gate read_only is_production true policy ack (.error err) mongoMut
        = .block (SQL_PARSE_BLOCKED ++ ": " ++ err))
    ∧ (read_only = false → is_production = true →
       policy.prod_block_dangerous_sql = true →
      execute_query_gate read_only is_production true policy ack (.error err) mongoMut
        = .block (DANGEROUS_BLOCKED_POLICY ++ ": SQL parse error: " ++ err))
    ∧ (read_only = false → is_production = true →
       policy.prod_block_dangerous_sql = false →
       policy.prod_require_confirmation = true → ack.getD false = false →
      execute_query_gate read_only is_production true policy ack (.error err) mongoMut
        = .block (DANGEROUS_BLOCKED ++ ": SQL parse error: " ++ err))
    ∧ (read_only = false →
       (is_production = false ∨ (policy.prod_block_dangerous_sql = false ∧
         (policy.prod_require_confirmation = false ∨ ack.getD false = true))) →
      execute_query_gate read_only is_production true policy ack (.error err) mongoMut
        = .allow) := by
  simp only [execute_query_gate_parse_error]
  refine ⟨fun h => by simp [h], fun h1 h2 h3 => by simp [h1, h2, h3],
    fun h1 h2 h3 h4 h5 => by simp [h1, h2, h3, h4, h5], fun h1 h2 => ?_⟩
  rcases h2 with h2 | ⟨h3, h4⟩
  · simp [h1, h2]
  · rcases h4 with h4 | h4 <;> simp [h1, h3, h4]

/-- C3 witness: a read-only session with unparseable SQL is blocked with the
parser reason. -/
theorem parse_failure_gate_witness :
    execute_query_gate true false true
        { prod_require_confirmation := true, prod_block_dangerous_sql := false }
        none (.error "oops") false
      = .block (SQL_PARSE_BLOCKED ++ ": " ++ "oops") :=
  (parse_failure_gate "oops" true false
    { prod_require_confirmation := true, prod_block_dangerous_sql := false }
    none false).1 rfl

/-- C4: `analyze_sql` OR-reduces both flags across the statements of a
multi-statement input, marks `DROP`, `TRUNCATE` and the `ALTER` family
dangerous, marks `UPDATE`/`DELETE` dangerous exactly when the `WHERE`
selection is absent, and `EXPLAIN ANALYZE` inherits both flags of its inner
statement. -/
theorem analyze_sql_flags :
    (∀ statements : List Statement,
      (analyze_sql statements).is_mutation = statements.any is_mutation_statement ∧
      (analyze_sql statements).is_dangerous = statements.any is_dangerous_statement)
    ∧ (is_dangerous_statement .drop = true ∧ is_dangerous_statement .dropFunction = true ∧
       is_dangerous_statement .dropDomain = true ∧ is_dangerous_statement .dropProcedure = true ∧
       is_dangerous_statement .truncate = true ∧ is_dangerous_statement .alterTable = true ∧
       is_dangerous_statement .alterSchema = true ∧ is_dangerous_statement .alterIndex = true ∧
       is_dangerous_statement .alterView = true ∧ is_dangerous_statement .alterType = true ∧
       is_dangerous_statement .alterRole = true ∧ is_dangerous_statement .alterPolicy = true ∧
       is_dangerous_statement .alterConnector = true ∧
       is_dangerous_statement .alterSession = true ∧ is_dangerous_statement .alterUser = true)
    ∧ (∀ selection, is_dangerous_statement (.update selection) = selection.isNone)
    ∧ (∀ selection, is_dangerous_statement (.delete selection) = selection.isNone)
    ∧ (∀ st : Statement,
        is_mutation_statement (.explain true st) = is_mutation_statement st ∧
        is_dangerous_statement (.explain true st) = is_dangerous_statement st) := by
  refine ⟨fun statements => ?_, by decide, fun selection => rfl, fun selection => rfl,
    fun st => ⟨rfl, rfl⟩⟩
  rw [analyze_sql, analyze_sql_foldl]
  exact ⟨by simp, by simp⟩

/-- C5: re-registering an already-registered query id fails and leaves the
first registration fully intact: the second call returns the state
unchanged, `contains` still holds and `session_for` still names the first
session. -/
theorem register_with_id_duplicate (st : QueryManagerState) (s1 s2 : SessionId)
    (q : QueryId) (st1 : QueryManagerState)
    (h : register_with_id st s1 q = (.ok q, st1)) :
    register_with_id st1 s2 q = (.error "Query ID already registered", st1)
    ∧ contains st1 q = true ∧ session_for st1 q = some s1 := by
  rw [register_with_id] at h
  by_cases hq : (st.active q).isSome
  · rw [if_pos hq] at h
    simp at h
  · rw [if_neg hq] at h
    injection h with h1 h2
    subst h2
    refine ⟨?_, ?_, ?_⟩ <;> simp [register_with_id, contains, session_for]

/-- C5 witness: the theorem applied to a concrete first registration. -/
theorem register_with_id_duplicate_witness :
    register_with_id (register_with_id QueryManagerState.empty 0 5).2 1 5
      = (.error "Query ID already registered",
         (register_with_id QueryManagerState.empty 0 5).2) :=
  (register_with_id_duplicate QueryManagerState.empty 0 1 5
    (register_with_id QueryManagerState.empty 0 5).2 rfl).1

/-- C6: transaction affinity on the relational session slot — beginning while
a transaction is active fails with the `TransactionError` already-active
conflict and leaves the slot; commit or rollback without an active
transaction fails with the `TransactionError` no-active case; and after a
successful commit or rollback the slot is empty, so a subsequent
`begin_transaction` succeeds. -/
theorem transaction_affinity :
    (∀ (conn : Nat) (pool_acquire : Except String Nat) (begin_exec : Except String Unit),
      begin_transaction (some conn) pool_acquire begin_exec
        = (.error (EngineError.transaction_error
            "A transaction is already active on this session"), some conn))
    ∧ (∀ commit_exec, commit none commit_exec
        = (.error (EngineError.transaction_error "No active transaction to commit"), none))
    ∧ (∀ rollback_exec, rollback none rollback_exec
        = (.error (EngineError.transaction_error "No active transaction to rollback"), none))
    ∧ (∀ conn : Nat, commit (some conn) (.ok ()) = (.ok (), none))
    ∧ (∀ conn : Nat, rollback (some conn) (.ok ()) = (.ok (), none))
    ∧ (∀ conn : Nat, begin_transaction none (.ok conn) (.ok ()) = (.ok (), some conn)) :=
  ⟨fun _ _ _ => rfl, fun _ => rfl, fun _ => rfl, fun _ => rfl, fun _ => rfl, fun _ => rfl⟩

/-- C7: deterministic mutation SQL generation — identifiers are quoted with
the doubled-quote escape (`a"b` renders as `"a""b"`), empty `RowData` inserts
emit the `DEFAULT VALUES` form, update/delete with an empty primary-key map
are refused, update with a non-empty key but empty data returns zero affected
rows without a round trip, and column lists are the sorted key permutation
with values bound positionally in the same order. -/
theorem mutation_sql_generation :
    (quote_ident "a\"b" = "\"a\"\"b\"")
    ∧ (∀ ns t, insert_row ns t ⟨[]⟩
        = .ok (.execute ("INSERT INTO " ++ table_name ns t ++ " DEFAULT VALUES") []))
    ∧ (∀ ns t data, update_row ns t ⟨[]⟩ data
        = .error "Primary key required for update operations")
    ∧ (∀ ns t, delete_row ns t ⟨[]⟩
        = .error "Primary key required for delete operations")
    ∧ (∀ ns t p ps, update_row ns t ⟨p :: ps⟩ ⟨[]⟩ = .ok (.immediate 0))
    ∧ (∀ columns : List (String × Value),
        List.Sorted (· ≤ ·) (sorted_keys columns)
        ∧ (sorted_keys columns).Perm (columns.map Prod.fst))
    ∧ (insert_row ⟨"db", none⟩ "t" ⟨[("b", .int 2), ("a", .int 1)]⟩
        = .ok (.execute "INSERT INTO \"t\" (\"a\", \"b\") VALUES ($1, $2)"
            [.int 1, .int 2]))
    ∧ (insert_row ⟨"db", none⟩ "t" ⟨[("a\"b", .null)]⟩
        = .ok (.execute "INSERT INTO \"t\" (\"a\"\"b\") VALUES ($1)" [.null]))
    ∧ (update_row ⟨"db", none⟩ "t" ⟨[("id", .int 1)]⟩ ⟨[("b", .text "x"), ("a", .null)]⟩
        = .ok (.execute "UPDATE \"t\" SET \"a\"=$1, \"b\"=$2 WHERE \"id\"=$3"
            [.null, .text "x", .int 1]))
    ∧ (delete_row ⟨"db", some "s"⟩ "t" ⟨[("id", .int 1)]⟩
        = .ok (.execute "DELETE FROM \"s\".\"t\" WHERE \"id\"=$1" [.int 1])) := by
  refine ⟨rfl, fun ns t => rfl, fun ns t data => rfl, fun ns t => rfl,
    fun ns t p ps => rfl,
    fun columns => ?_, rfl, rfl, rfl, rfl⟩
  rw [sorted_keys, insertion_sort_eq]
  exact ⟨List.sorted_insertionSort _ _, List.perm_insertionSort _ _⟩

/-- C8 counterexample: a JSON query whose `operation` is `drop_collection`
(or `drop_database`) is not dispatched to a drop — `execute` special-cases
only `create_collection`, so the input falls through to `parse_query` and is
run as a `find` on the named collection. -/
theorem mongo_drop_operations_run_as_find :
    mongo_execute
        "\x7b\"database\":\"d\",\"collection\":\"c\",\"operation\":\"drop_collection\"\x7d"
        (.ok (.obj [("database", .str "d"), ("collection", .str "c"),
                    ("operation", .str "drop_collection")]))
      = .ok (.find "d" "c" (.obj []))
    ∧ mongo_execute
        "\x7b\"database\":\"d\",\"collection\":\"c\",\"operation\":\"drop_database\"\x7d"
        (.ok (.obj [("database", .str "d"), ("collection", .str "c"),
                    ("operation", .str "drop_database")]))
      = .ok (.find "d" "c" (.obj [])) :=
  ⟨rfl, rfl⟩

/-- C8 (amended): the document driver's `execute` accepts the dotted
shorthand `database.collection` and the JSON object shape with `database`
and `collection`; the `operation` field supports only `create_collection`,
every other value (including `drop_collection` and `drop_database`) falling
through to find mode, which is also the default; other shapes are refused;
and find mode returns at most 1000 documents. -/
theorem mongo_execute_shapes :
    (mongo_execute "mydb.mycoll" (.error "not json")
      = .ok (.find "mydb" "mycoll" (.obj [])))
    ∧ (mongo_execute "\x7b\"database\":\"d\",\"collection\":\"c\"\x7d"
        (.ok (.obj [("database", .str "d"), ("collection", .str "c")]))
      = .ok (.find "d" "c" (.obj [])))
    ∧ (mongo_execute
        "\x7b\"database\":\"d\",\"collection\":\"c\",\"operation\":\"create_collection\"\x7d"
        (.ok (.obj [("database", .str "d"), ("collection", .str "c"),
                    ("operation", .str "create_collection")]))
      = .ok (.createCollection "d" "c"))
    ∧ (mongo_execute "plain" (.error "e")
      = .error "Invalid query format. Use JSON: \x7b\"database\": \"db\", \"collection\": \"col\", \"query\": \x7b...\x7d\x7d")
    ∧ (∀ cursor : List Json, (collect_documents cursor []).length ≤ 1000) :=
  ⟨rfl, rfl, rfl, rfl, fun cursor => collect_documents_le cursor [] (by simp)⟩

/-- C9: while the vault lock is locked, `connect_saved_connection` returns
the `{success: false, error: "Vault is locked"}` envelope before touching the
vault or attempting a connection; a successful `unlock` with the matching
master password sets the flag, after which the same gate no longer blocks. -/
theorem vault_lock_gate :
    (connect_saved_connection_gate { is_unlocked := false }
      = some { success := false, session_id := none, error := some "Vault is locked" })
    ∧ (unlock { is_unlocked := false } (.ok "stored-argon2-hash") (.ok ()) true
      = (.ok true, { is_unlocked := true }))
    ∧ (connect_saved_connection_gate { is_unlocked := true } = none) :=
  ⟨rfl, rfl, rfl⟩

/-- C10: `finish` drops `last_by_session` only when it still points at the
finished id; in particular after registering Q1 then Q2 on the same session,
finishing Q1 first leaves `last_for_session` at Q2, preserving
cancel-most-recent behaviour. -/
theorem finish_preserves_other_last :
    (∀ (st : QueryManagerState) (q : QueryId) (s : SessionId),
      last_for_session st s ≠ some q →
      last_for_session (finish st q) s = last_for_session st s)
    ∧ (∀ (st : QueryManagerState) (s : SessionId) (q1 q2 : QueryId),
      q1 ≠ q2 → st.active q1 = none → st.active q2 = none →
      last_for_session (finish (register (register st s q1).2 s q2).2 q1) s
        = some q2) := by
  constructor
  · intro st q s hne
    simp only [last_for_session] at hne ⊢
    simp only [finish]
    cases hA : st.active q
    · rfl
    · next sid =>
      by_cases hs : s = sid
      · subst hs
        simp [hne]
      · simp [hs]
  · intro st s q1 q2 hq h1 h2
    have hq2 : q2 ≠ q1 := Ne.symm hq
    simp [register, register_with_id, finish, last_for_session, h1, h2, hq, hq2]

/-- C10 witness: the theorem applied at concrete ids on the empty manager. -/
theorem finish_preserves_other_last_witness :
    last_for_session
        (finish (register (register QueryManagerState.empty 0 1).2 0 2).2 1) 0
      = some 2 :=
  finish_preserves_other_last.2 QueryManagerState.empty 0 1 2 (by decide) rfl rfl

end QoreDB
